import Mathlib

/-!
Shallow embedding of the cf-aegis configuration compiler.

The embedding covers `createMiniflareOptions` and `applyAssetRouterWorkaround`
from `lib/wrangler.js`, and the lifecycle helpers `aegisSetup` /
`aegisTeardown` from `lib/index.js`.

Modelling conventions:
* JavaScript objects with dynamic keys are association lists in insertion
  order; a missing key is `none`.
* In-place mutation of the worker array is modelled by returning the updated
  list.  The single point where the JavaScript would throw on its input
  (reading `workers[0].assets` of an empty array) is modelled by `none`.
* The ambient process working directory used by `path.resolve` is threaded as
  an explicit `cwd` argument.
* The executable worker bodies are opaque payload strings; they are carried
  verbatim except that the JavaScript comment lines inside the template
  literals are elided.
-/

/-- A JavaScript value appearing on the value side of a keyed-object mapping
entry: a string, the empty object used as a static value, or `undefined`. -/
inductive OVal where
  | str (s : String)
  | emptyObj
  | undef
deriving DecidableEq, Repr

/-- Association-list lookup, modelling JS property access `obj[k]`. -/
def objLookup {α : Type} : List (String × α) → String → Option α
  | [], _ => none
  | (k', v') :: rest, k => if k' = k then some v' else objLookup rest k

/-- Association-list update, modelling JS property assignment `obj[k] = v`:
an existing key keeps its position and receives the new value, a new key is
appended at the end. -/
def objSet {α : Type} : List (String × α) → String → α → List (String × α)
  | [], k, v => [(k, v)]
  | (k', v') :: rest, k, v =>
      if k' = k then (k, v) :: rest else (k', v') :: objSet rest k v

/-- JS `Object.fromEntries`: build an object from key/value pairs, a later
entry for the same key overwriting the earlier value while the first
occurrence fixes the key position. -/
def objectFromEntries {α : Type} (l : List (String × α)) : List (String × α) :=
  l.foldl (fun acc p => objSet acc p.1 p.2) []

/-- One element of a descriptor array such as `kv_namespaces`: an object with
string-valued fields. -/
abbrev Item := List (String × String)

/-- The `assets` block of a descriptor: optional binding name and optional
directory (the code destructures both and copies them verbatim). -/
structure AssetsConfig where
  binding : Option String := none
  directory : Option String := none
deriving DecidableEq, Repr

/-- One entry of the descriptor `services` array. -/
structure ServiceEntry where
  binding : String
  service : String
deriving DecidableEq, Repr

/-- The nested `queues` block of a descriptor. -/
structure QueuesConfig where
  producers : Option (List Item) := none
  consumers : Option (List Item) := none
deriving DecidableEq, Repr

/-- The nested `durable_objects` block of a descriptor. -/
structure DurableObjectsConfig where
  bindings : Option (List Item) := none
deriving DecidableEq, Repr

/-- The nested `dev` block of a descriptor. -/
structure DevConfig where
  port : Option Nat := none
  hostname : Option String := none
deriving DecidableEq, Repr

/-- A well-typed deployment descriptor (parsed wrangler configuration):
every recognized top-level key, each optional.  Unrecognized keys are never
read by the compiler and are therefore not modelled. -/
structure Descriptor where
  main : Option String := none
  compatibility_date : Option String := none
  compatibility_flags : Option (List String) := none
  vars : Option (List (String × String)) := none
  assets : Option AssetsConfig := none
  kv_namespaces : Option (List Item) := none
  r2_buckets : Option (List Item) := none
  d1_databases : Option (List Item) := none
  durable_objects : Option DurableObjectsConfig := none
  queues : Option QueuesConfig := none
  services : Option (List ServiceEntry) := none
  dev : Option DevConfig := none
deriving DecidableEq, Repr

/-- One entry of the caller-supplied mock registry: a script body or a path
to one. -/
structure ServiceMock where
  script : Option String := none
  scriptPath : Option String := none
deriving DecidableEq, Repr

/-- A compiled worker in the shape consumed by the Miniflare constructor. -/
structure CompiledWorker where
  name : String
  modules : Bool := true
  bindings : Option (List (String × String)) := none
  scriptPath : Option String := none
  script : Option String := none
  assets : Option AssetsConfig := none
  kvNamespaces : Option (List (Option String)) := none
  r2Buckets : Option (List (Option String)) := none
  d1Databases : Option (List (String × OVal)) := none
  durableObjects : Option (List (String × OVal)) := none
  queueProducers : Option (List (String × OVal)) := none
  queueConsumers : Option (List (String × OVal)) := none
  serviceBindings : Option (List (String × String)) := none
  compatibilityDate : Option String := none
  compatibilityFlags : Option (List String) := none
  sitePath : Option String := none
deriving DecidableEq, Repr

/-- The compiled configuration handed to the Miniflare constructor. -/
structure MiniflareOptions where
  workers : List CompiledWorker
  host : Option String := none
  port : Option Nat := none
deriving DecidableEq, Repr

/-- JS `a || b` for an optional string `a`: the only falsy string is the
empty string, so an absent or empty value picks the default. -/
def jsStringOr (a : Option String) (b : String) : String :=
  match a with
  | some s => if s = "" then b else s
  | none => b

/-- Node `path.dirname` (posix) on the path shapes this code produces. -/
def pathDirname (p : String) : String :=
  let comps := p.splitOn "/"
  if comps.length ≤ 1 then "."
  else
    let d := String.intercalate "/" comps.dropLast
    if d = "" then "/" else d

/-- Normalize a path assumed absolute: drop empty and `.` segments and
resolve `..` segments. -/
def normalizePath (p : String) : String :=
  let segs := (p.splitOn "/").filter (fun s => !(s == "") && !(s == "."))
  let segs := segs.foldl
    (fun acc s => if s = ".." then acc.dropLast else acc ++ [s])
    ([] : List String)
  "/" ++ String.intercalate "/" segs

/-- Node `path.resolve(p)` with the ambient process working directory made
an explicit `cwd` argument. -/
def pathResolve1 (cwd p : String) : String :=
  normalizePath (if p.startsWith "/" then p else cwd ++ "/" ++ p)

/-- Node `path.resolve(base, file)` for a `file` that is a bare relative
name, with the ambient working directory explicit. -/
def pathResolve2 (cwd base file : String) : String :=
  pathResolve1 cwd (base ++ "/" ++ file)

/-- Body of the synthesized default mock worker for a service with no entry
in the mock registry (the template literal from `createMiniflareOptions`,
with the service name interpolated). -/
def defaultMockScript (serviceName : String) : String :=
  "\n          export default \x7b\n            fetch(request) \x7b\n              console.log(\x60(cf-aegis) mock for service \x27"
    ++ serviceName
    ++ "\x27 received a request for: $\x7brequest.url\x7d\x60);\n              return new Response(\x27Service not implemented in test environment\x27, \x7b status: 404 \x7d);\n            \x7d\n          \x7d\n        "

/-- Body of the synthesized asset-store worker (the `storeScript` template
literal from `applyAssetRouterWorkaround`; JavaScript comment lines inside
the literal are elided). -/
def storeScript : String :=
  "\n    imp" ++ "ort manifestJSON from \"__STATIC_CONTENT_MANIFEST\";\n" ++
  "    const manifest = JSON.parse(manifestJSON);\n" ++
  "    const MIME_TYPES = \x7b\n" ++
  "      html: \x27text/html\x27,\n" ++
  "      css: \x27text/css\x27,\n" ++
  "      js: \x27application/javascript\x27,\n" ++
  "      json: \x27application/json\x27,\n" ++
  "      png: \x27image/png\x27,\n" ++
  "      jpg: \x27image/jpeg\x27,\n" ++
  "      jpeg: \x27image/jpeg\x27,\n" ++
  "      gif: \x27image/gif\x27,\n" ++
  "      svg: \x27image/svg+xml\x27,\n" ++
  "      ico: \x27image/x-icon\x27,\n" ++
  "      txt: \x27text/plain\x27,\n" ++
  "      xml: \x27text/xml\x27,\n" ++
  "      woff: \x27font/woff\x27,\n" ++
  "      woff2: \x27font/woff2\x27,\n" ++
  "      ttf: \x27font/ttf\x27,\n" ++
  "      wasm: \x27application/wasm\x27\n" ++
  "    \x7d;\n" ++
  "    function getMime(path) \x7b\n" ++
  "      const ext = path.split(\x27.\x27).pop().toLowerCase();\n" ++
  "      return MIME_TYPES[ext] || \x27application/octet-stream\x27;\n" ++
  "    \x7d\n" ++
  "    export default \x7b\n" ++
  "      async fetch(request, env, ctx) \x7b\n" ++
  "        const url = new URL(request.url);\n" ++
  "        const path = decodeURIComponent(url.pathname).slice(1);\n" ++
  "        let key = manifest[path];\n" ++
  "        let assetPath = path;\n" ++
  "        if (key === undefined) \x7b\n" ++
  "          if (path.endsWith(\x27/\x27) === true || path === \x27\x27) \x7b\n" ++
  "             assetPath = path + \x27index.html\x27;\n" ++
  "             key = manifest[assetPath];\n" ++
  "          \x7d else \x7b\n" ++
  "             assetPath = path + \x27/index.html\x27;\n" ++
  "             key = manifest[assetPath];\n" ++
  "          \x7d\n" ++
  "        \x7d\n" ++
  "        if (key !== undefined) \x7b\n" ++
  "          const body = await env.__STATIC_CONTENT.get(key, \x7b type: \x27stream\x27 \x7d);\n" ++
  "          if (body !== null) \x7b\n" ++
  "            return new Response(body, \x7b\n" ++
  "              headers: \x7b\n" ++
  "                \x27Content-Type\x27: getMime(assetPath)\n" ++
  "              \x7d\n" ++
  "            \x7d);\n" ++
  "          \x7d\n" ++
  "        \x7d\n" ++
  "        return new Response(\"Not Found\", \x7b status: 404 \x7d);\n" ++
  "      \x7d\n" ++
  "    \x7d\n  "

/-- Body of the synthesized router worker (the `routerScript` template
literal from `applyAssetRouterWorkaround`; JavaScript comment lines inside
the literal are elided). -/
def routerScript : String :=
  "\n    export default \x7b\n" ++
  "      async fetch(request, env, ctx) \x7b\n" ++
  "        const response = await env.ASSET_STORE.fetch(request);\n" ++
  "        if (response.status === 404) \x7b\n" ++
  "          return env.USER_WORKER.fetch(request);\n" ++
  "        \x7d\n" ++
  "        return response;\n" ++
  "      \x7d\n" ++
  "    \x7d\n  "

/-- The value side of one keyed-object mapping entry:
`mapping.staticValue ?? item[mapping.value]`.  The nullish coalescing
evaluates the static value first; a missing value field yields `undefined`. -/
def keyedValue (item : Item) (static : Option OVal) (valueField : Option String) : OVal :=
  match static with
  | some sv => sv
  | none =>
      match valueField.bind (objLookup item) with
      | some s => OVal.str s
      | none => OVal.undef

/-- Apply one keyed-object mapping rule to a resolved source array:
`Object.fromEntries(sourceArray.map(item => [item[key], staticValue ?? item[value]]))`.
A missing key field stringifies to the property key "undefined", as JS
property-key coercion of `undefined` does. -/
def mkKeyedObject (items : List Item) (keyField : String) (static : Option OVal)
    (valueField : Option String) : List (String × OVal) :=
  objectFromEntries (items.map fun item =>
    ((objLookup item keyField).getD "undefined", keyedValue item static valueField))

/-- The primary worker built by `createMiniflareOptions` before service
handling: the initializer plus the sequence of guarded assignments for
`vars`, `assets`, the direct key mappings, the array-of-names mappings and
the keyed-object mappings.  Each guarded assignment targets a distinct
field, so the sequence is written as one record; every rule of the three
static mapping tables appears here, unrolled in table order with its
source, target, key and value fields spelled out. -/
def mkMainWorker (config : Descriptor) : CompiledWorker :=
  { name := "main"
    modules := true
    bindings := some (match config.vars with | some v => v | none => [])
    assets := config.assets.map (fun a => { binding := a.binding, directory := a.directory })
    scriptPath := config.main
    compatibilityDate := config.compatibility_date
    compatibilityFlags := config.compatibility_flags
    kvNamespaces := config.kv_namespaces.map (fun items => items.map (fun item => objLookup item "binding"))
    r2Buckets := config.r2_buckets.map (fun items => items.map (fun item => objLookup item "binding"))
    queueProducers := (config.queues.bind (fun q => q.producers)).map
      (fun items => mkKeyedObject items "binding" none (some "queue"))
    queueConsumers := (config.queues.bind (fun q => q.consumers)).map
      (fun items => mkKeyedObject items "queue" (some OVal.emptyObj) none)
    d1Databases := config.d1_databases.map
      (fun items => mkKeyedObject items "binding" none (some "database_id"))
    durableObjects := (config.durable_objects.bind (fun dob => dob.bindings)).map
      (fun items => mkKeyedObject items "name" none (some "class_name"))
    serviceBindings := config.services.map
      (fun svcs => objectFromEntries (svcs.map (fun s => (s.binding, s.service))))
    script := none
    sitePath := none }

/-- One auxiliary worker built for one `services` entry: the mock from the
registry spread over the base `name`/`modules` object when present,
otherwise the default stub mock. -/
def mkServiceWorker (workerMocks : List (String × ServiceMock)) (s : ServiceEntry) : CompiledWorker :=
  match objLookup workerMocks s.service with
  | some mock =>
      { name := s.service, modules := true,
        script := mock.script, scriptPath := mock.scriptPath }
  | none =>
      { name := s.service, modules := true,
        script := some (defaultMockScript s.service) }

/-- `createMiniflareOptions(config, workerMocks)`: the binding compiler.
Builds the primary worker, appends one auxiliary worker per `services`
entry, and copies the `dev` block's port (with the `||`-defaulted
hostname) to the top level when `config.dev?.port` is defined. -/
def createMiniflareOptions (config : Descriptor)
    (workerMocks : List (String × ServiceMock)) : MiniflareOptions :=
  let mainWorker := mkMainWorker config
  let workers := mainWorker ::
    (match config.services with
     | some svcs => svcs.map (mkServiceWorker workerMocks)
     | none => [])
  match config.dev.bind (fun dc => dc.port) with
  | some p =>
      { workers := workers,
        host := some (jsStringOr (config.dev.bind (fun dc => dc.hostname)) "127.0.0.1"),
        port := some p }
  | none => { workers := workers }

/-- `applyAssetRouterWorkaround(workers)`: the asset fallback synthesizer.
The in-place mutation of the array is modelled by returning the updated
list; `none` models the TypeError the JavaScript throws when reading
`workers[0].assets` of an empty array.  The ambient working directory used
by `path.resolve` is the explicit `cwd` argument. -/
def applyAssetRouterWorkaround (cwd : String) (workers : List CompiledWorker) :
    Option (List CompiledWorker) :=
  match workers with
  | [] => none
  | mainWorker :: rest =>
    match mainWorker.assets with
    | none => some (mainWorker :: rest)
    | some assetConfig =>
      let mainWorker1 : CompiledWorker := { mainWorker with assets := none }
      let baseScriptPath :=
        match mainWorker1.scriptPath with
        | some p => pathDirname p
        | none => pathResolve1 cwd "."
      let storeScriptPath := pathResolve2 cwd baseScriptPath "asset-store-workaround.js"
      let routerScriptPath := pathResolve2 cwd baseScriptPath "asset-router-workaround.js"
      let storeWorker : CompiledWorker :=
        { name := "asset-store", modules := true,
          sitePath := assetConfig.directory,
          script := some storeScript, scriptPath := some storeScriptPath }
      let routerWorker : CompiledWorker :=
        { name := "asset-router", modules := true,
          script := some routerScript, scriptPath := some routerScriptPath,
          serviceBindings := some
            [("USER_WORKER", mainWorker1.name), ("ASSET_STORE", "asset-store")] }
      let storeWorker := match mainWorker1.compatibilityDate with
        | some cd => { storeWorker with compatibilityDate := some cd }
        | none => storeWorker
      let routerWorker := match mainWorker1.compatibilityDate with
        | some cd => { routerWorker with compatibilityDate := some cd }
        | none => routerWorker
      let storeWorker := match mainWorker1.compatibilityFlags with
        | some cf => { storeWorker with compatibilityFlags := some cf }
        | none => storeWorker
      let routerWorker := match mainWorker1.compatibilityFlags with
        | some cf => { routerWorker with compatibilityFlags := some cf }
        | none => routerWorker
      let mainWorker2 := match assetConfig.binding with
        | some b =>
            { mainWorker1 with
              serviceBindings := some (objSet (mainWorker1.serviceBindings.getD []) b "asset-store") }
        | none => mainWorker1
      some (routerWorker :: storeWorker :: mainWorker2 :: rest)

/-- The shared test context operated on by `aegisSetup` / `aegisTeardown`:
the five keys the setup step may add (a missing key is `none`), plus any
unrelated keys the caller already stored (`extra`), which neither helper
touches.  The Miniflare instance is modelled by the options it was
constructed from; the fetch helper closure is opaque, so only its presence
is tracked. -/
structure AegisCtx where
  worker : Option MiniflareOptions := none
  env : Option (List (String × String)) := none
  fetch : Option Unit := none
  isServerListening : Option Bool := none
  serverBaseUrl : Option String := none
  extra : List (String × String) := []
deriving DecidableEq, Repr

/-- The freshly created empty context, `ctx = \x7b\x7d`. -/
def emptyAegisCtx : AegisCtx := {}

/-- The stub back-fill inside `aegisSetup`: the first worker named "main"
that has neither a script nor a scriptPath receives the no-op handler. -/
def backfillMainStub : List CompiledWorker → List CompiledWorker
  | [] => []
  | w :: ws =>
    if w.name = "main" then
      (if w.script.isNone && w.scriptPath.isNone then
        { w with script := some "export default \x7b\x7d" } :: ws
       else w :: ws)
    else w :: backfillMainStub ws

/-- Models `worker.getBindings("main")`: the simulator returns the binding
handles of the main worker, abstracted here by its configured bindings map. -/
def envOf (o : MiniflareOptions) : List (String × String) :=
  match o.workers.find? (fun w => w.name = "main") with
  | some w => w.bindings.getD []
  | none => []

/-- `aegisSetup(ctx, inputConfig, workerMocks)` for an in-memory descriptor
(the success path): its effect on the context record.  Sets
`isServerListening` first, adds `serverBaseUrl` only when a port is
configured, back-fills the main worker stub, then stores the worker
instance, the resolved bindings and the fetch helper. -/
def aegisSetup (ctx : AegisCtx) (inputConfig : Descriptor)
    (workerMocks : List (String × ServiceMock)) : AegisCtx :=
  let ctx := { ctx with isServerListening := some false }
  let miniflareOptions := createMiniflareOptions inputConfig workerMocks
  let ctx :=
    match miniflareOptions.port with
    | some p =>
        { ctx with
          isServerListening := some true
          serverBaseUrl := some ("http://" ++ miniflareOptions.host.getD "undefined" ++ ":" ++ toString p) }
    | none => ctx
  let miniflareOptions :=
    { miniflareOptions with workers := backfillMainStub miniflareOptions.workers }
  { ctx with
    worker := some miniflareOptions
    env := some (envOf miniflareOptions)
    fetch := some () }

/-- `aegisTeardown(ctx)`: disposes the simulator if present (an external
effect with no footprint on the context) and deletes the five keys the
setup step may have added. -/
def aegisTeardown (ctx : AegisCtx) : AegisCtx :=
  { ctx with
    worker := none
    env := none
    fetch := none
    isServerListening := none
    serverBaseUrl := none }

/-- Well-typedness of the caller-supplied mock registry: each mock declares
a script or a script path, not both. -/
def mocksWellTyped (m : List (String × ServiceMock)) : Prop :=
  ∀ p ∈ m, p.2.script = none ∨ p.2.scriptPath = none

/-- A descriptor whose `services` list binds the same downstream service
under two different binding names. -/
def dupServicesDesc : Descriptor :=
  { services := some [⟨"A", "svc"⟩, ⟨"B", "svc"⟩] }

/-- A descriptor declaring a service whose name collides with the primary
worker's name. -/
def mainCollisionDesc : Descriptor :=
  { services := some [⟨"A", "main"⟩] }

/-- A descriptor with a static-asset block (binding name and directory) and
a main script path. -/
def assetsDesc : Descriptor :=
  { main := some "./w/main.js"
    assets := some { binding := some "ASSETS", directory := some "./d" } }

/-- A descriptor whose `dev` block has a port and an empty hostname string. -/
def emptyHostnameDesc : Descriptor :=
  { dev := some { port := some 8787, hostname := some "" } }

/-- A descriptor whose `dev` block has a port and no hostname. -/
def portOnlyDesc : Descriptor :=
  { dev := some { port := some 8787 } }

/-- A primary worker carrying an asset configuration and a script path, as
the binding compiler produces for `assetsDesc`. -/
def assetMainWorker : CompiledWorker :=
  { name := "main"
    bindings := some []
    assets := some { binding := some "ASSETS", directory := some "./d" }
    scriptPath := some "./w/main.js" }

/-- The worker list obtained by one application of the asset workaround to
`[assetMainWorker]`. -/
def assetAppliedList : List CompiledWorker :=
  (applyAssetRouterWorkaround "/base" [assetMainWorker]).getD []

theorem objLookup_objSet_self {α : Type} (l : List (String × α)) (k : String) (v : α) :
    objLookup (objSet l k v) k = some v := by
  induction l with
  | nil => simp [objSet, objLookup]
  | cons p rest ih =>
    obtain ⟨k', v'⟩ := p
    by_cases h : k' = k
    · simp [objSet, h, objLookup]
    · simp [objSet, h, objLookup, ih]

theorem objLookup_mem {α : Type} (l : List (String × α)) (k : String) (v : α)
    (h : objLookup l k = some v) : (k, v) ∈ l := by
  induction l with
  | nil => simp [objLookup] at h
  | cons p rest ih =>
    obtain ⟨k', v'⟩ := p
    by_cases hk : k' = k
    · subst hk
      simp [objLookup] at h
      simp [h]
    · simp [objLookup, hk] at h
      exact List.mem_cons_of_mem _ (ih h)

theorem mkServiceWorker_name (m : List (String × ServiceMock)) (s : ServiceEntry) :
    (mkServiceWorker m s).name = s.service := by
  unfold mkServiceWorker
  cases objLookup m s.service <;> rfl

theorem compile_workers_eq (d : Descriptor) (m : List (String × ServiceMock)) :
    (createMiniflareOptions d m).workers =
      mkMainWorker d ::
        (match d.services with
         | some svcs => svcs.map (mkServiceWorker m)
         | none => []) := by
  rcases h : d.dev.bind (fun dc => dc.port) with _ | p <;>
    simp [createMiniflareOptions, h]

theorem compile_worker_names (d : Descriptor) (m : List (String × ServiceMock)) :
    (createMiniflareOptions d m).workers.map (fun w => w.name) =
      "main" :: (d.services.getD []).map (fun s => s.service) := by
  rw [compile_workers_eq]
  rcases hs : d.services with _ | svcs <;>
    simp [mkMainWorker, mkServiceWorker_name]

theorem compile_port_eq (d : Descriptor) (m : List (String × ServiceMock)) :
    (createMiniflareOptions d m).port = d.dev.bind (fun dc => dc.port) := by
  rcases h : d.dev.bind (fun dc => dc.port) with _ | p <;>
    simp [createMiniflareOptions, h]

theorem compile_host_eq (d : Descriptor) (m : List (String × ServiceMock)) :
    (createMiniflareOptions d m).host =
      (d.dev.bind (fun dc => dc.port)).map
        (fun _ => jsStringOr (d.dev.bind (fun dc => dc.hostname)) "127.0.0.1") := by
  rcases h : d.dev.bind (fun dc => dc.port) with _ | p <;>
    simp [createMiniflareOptions, h]

/-- C6: for the descriptor containing none of the recognized keys and any
mock registry, the binding compiler returns exactly one worker, named
"main", with an empty bindings map, neither a `script` nor a `scriptPath`
field, and no top-level `host` or `port` (all other optional fields are
absent as well). -/
theorem C6_empty_descriptor :
    ∀ m : List (String × ServiceMock),
      createMiniflareOptions {} m =
        { workers := [{ name := "main", modules := true, bindings := some [] }] } := by
  intro m
  rfl

/-- C8: the binding compiler is total — for every well-typed descriptor
(any combination of present and missing optional keys; well-typedness is
enforced by the `Descriptor` type) and every mock registry it returns a
compiled configuration, whose worker list starts with the primary worker
named "main"; no input makes it fail. -/
theorem C8_total :
    ∀ (d : Descriptor) (m : List (String × ServiceMock)),
      ∃ w ws, (createMiniflareOptions d m).workers = w :: ws ∧ w.name = "main" := by
  intro d m
  exact ⟨mkMainWorker d, _, compile_workers_eq d m, rfl⟩

/-- C9: running `aegisSetup` and then `aegisTeardown` on the initially
empty context returns the context to the empty object exactly, for every
descriptor and mock registry: teardown removes every key setup could have
added (`worker`, `env`, `fetch`, `isServerListening`, `serverBaseUrl`). -/
theorem C9_setup_teardown :
    ∀ (d : Descriptor) (m : List (String × ServiceMock)),
      aegisTeardown (aegisSetup emptyAegisCtx d m) = emptyAegisCtx := by
  intro d m
  rcases h : (createMiniflareOptions d m).port with _ | p <;>
    simp [aegisSetup, aegisTeardown, emptyAegisCtx, h]

/-- C1 fails on the code: a descriptor whose `services` list targets the
same service name "svc" under two different bindings yields two auxiliary
workers (one per `services` entry), not one per distinct service name —
the compiled sequence has three workers, two of them named "svc". -/
theorem C1_counterexample :
    ((createMiniflareOptions dupServicesDesc []).workers.map (fun w => w.name)
        = ["main", "svc", "svc"]) ∧
      (createMiniflareOptions dupServicesDesc []).workers.length ≠ 2 := by
  constructor
  · rfl
  · decide

/-- C1 (amended): the binding compiler produces exactly one auxiliary
compiled worker per `services` entry, named after the entry's target
service and appended in descriptor order; a service name that is the
target of two different bindings therefore yields two identical-named
workers, not one. -/
theorem C1_amended (d : Descriptor) (m : List (String × ServiceMock))
    (svcs : List ServiceEntry) (h : d.services = some svcs) :
    (createMiniflareOptions d m).workers.map (fun w => w.name) =
      "main" :: svcs.map (fun s => s.service) := by
  rw [compile_worker_names, h]
  rfl

/-- Witness for C1 (amended) at the duplicate-target descriptor. -/
theorem C1_witness :
    (createMiniflareOptions dupServicesDesc []).workers.map (fun w => w.name) =
      "main" :: [ServiceEntry.mk "A" "svc", ServiceEntry.mk "B" "svc"].map (fun s => s.service) :=
  C1_amended dupServicesDesc [] [ServiceEntry.mk "A" "svc", ServiceEntry.mk "B" "svc"] rfl

/-- C3 fails on the code: a descriptor declaring a service whose target
name is "main" compiles to two workers both named "main", so the worker
names of the compiled configuration are not pairwise distinct. -/
theorem C3_counterexample :
    ((createMiniflareOptions mainCollisionDesc []).workers.map (fun w => w.name)
        = ["main", "main"]) ∧
      ¬ ((createMiniflareOptions mainCollisionDesc []).workers.map (fun w => w.name)).Nodup := by
  constructor
  · rfl
  · rw [compile_worker_names]
    decide

/-- C3 (amended): the worker names of the compiled configuration are
pairwise distinct provided the descriptor's `services` entries target
pairwise distinct service names, none of which is "main"; the compiler
itself performs no deduplication and no collision check. -/
theorem C3_amended (d : Descriptor) (m : List (String × ServiceMock))
    (h1 : (((d.services.getD []).map (fun s => s.service))).Nodup)
    (h2 : "main" ∉ (d.services.getD []).map (fun s => s.service)) :
    ((createMiniflareOptions d m).workers.map (fun w => w.name)).Nodup := by
  rw [compile_worker_names]
  exact List.nodup_cons.mpr ⟨h2, h1⟩

/-- Witness for C3 (amended) at a descriptor with two distinct services. -/
theorem C3_witness :
    ((createMiniflareOptions { services := some [ServiceEntry.mk "A" "s1", ServiceEntry.mk "B" "s2"] } []).workers.map
        (fun w => w.name)).Nodup :=
  C3_amended { services := some [ServiceEntry.mk "A" "s1", ServiceEntry.mk "B" "s2"] } []
    (by decide) (by decide)

/-- C7 fails on the code in one corner: `host` is computed with JavaScript
`||`, so a present but empty `dev.hostname` string is replaced by the
default "127.0.0.1" instead of being used as the host. -/
theorem C7_counterexample :
    (emptyHostnameDesc.dev.bind (fun dc => dc.hostname) = some "") ∧
      (createMiniflareOptions emptyHostnameDesc []).port = some 8787 ∧
      (createMiniflareOptions emptyHostnameDesc []).host = some "127.0.0.1" ∧
      (some "127.0.0.1" : Option String) ≠ some "" := by
  refine ⟨rfl, rfl, rfl, by decide⟩

/-- C7 (amended): when `dev.port` is present the compiled configuration has
`port = dev.port`, and `host` equals `dev.hostname` when that is present
and non-empty, defaulting to "127.0.0.1" when it is absent or the empty
string; and whenever `port` is set on the output, `host` is also set. -/
theorem C7_amended :
    (∀ (d : Descriptor) (m : List (String × ServiceMock)) (dc : DevConfig) (p : Nat),
      d.dev = some dc → dc.port = some p →
        (createMiniflareOptions d m).port = some p ∧
        (∀ s, dc.hostname = some s → s ≠ "" →
          (createMiniflareOptions d m).host = some s) ∧
        ((dc.hostname = none ∨ dc.hostname = some "") →
          (createMiniflareOptions d m).host = some "127.0.0.1")) ∧
    (∀ (d : Descriptor) (m : List (String × ServiceMock)),
      (createMiniflareOptions d m).port.isSome → (createMiniflareOptions d m).host.isSome) := by
  constructor
  · intro d m dc p hdev hp
    refine ⟨?_, ?_, ?_⟩
    · rw [compile_port_eq, hdev]
      simpa using hp
    · intro s hs hne
      rw [compile_host_eq, hdev]
      simp [hp, hs, jsStringOr, hne]
    · intro hcase
      rw [compile_host_eq, hdev]
      rcases hcase with hn | he
      · simp [hp, hn, jsStringOr]
      · simp [hp, he, jsStringOr]
  · intro d m hps
    rw [compile_port_eq] at hps
    rw [compile_host_eq]
    rcases h : d.dev.bind (fun dc => dc.port) with _ | p
    · rw [h] at hps
      simp at hps
    · simp [h]

/-- Witness for C7 (amended) at the port-only descriptor. -/
theorem C7_witness :
    (createMiniflareOptions portOnlyDesc []).port = some 8787 ∧
      (createMiniflareOptions portOnlyDesc []).host = some "127.0.0.1" :=
  ⟨(C7_amended.1 portOnlyDesc [] { port := some 8787 } 8787 rfl rfl).1,
   (C7_amended.1 portOnlyDesc [] { port := some 8787 } 8787 rfl rfl).2.2 (Or.inl rfl)⟩

/-- C2: applying the asset fallback synthesizer to a sequence whose first
worker carries an `assets` field with a binding name and a `scriptPath`
grows the sequence by exactly 2, puts the router worker at index 0 and the
asset-store worker at index 1, strips the `assets` field from the original
primary worker, wires the router to both the store and the original
worker, and adds a service binding under the original asset binding name
on the primary worker pointing at the asset-store worker. -/
theorem C2_asset_synthesis (cwd : String) (w : CompiledWorker) (ws : List CompiledWorker)
    (ac : AssetsConfig) (b sp : String)
    (ha : w.assets = some ac) (hb : ac.binding = some b) (hsp : w.scriptPath = some sp) :
    ∃ router store w2,
      applyAssetRouterWorkaround cwd (w :: ws) = some (router :: store :: w2 :: ws) ∧
      (router :: store :: w2 :: ws).length = (w :: ws).length + 2 ∧
      router.name = "asset-router" ∧
      store.name = "asset-store" ∧
      w2.assets = none ∧
      w2 = { w with assets := none, serviceBindings := some (objSet (w.serviceBindings.getD []) b "asset-store") } ∧
      router.serviceBindings = some [("USER_WORKER", w.name), ("ASSET_STORE", "asset-store")] ∧
      objLookup (w2.serviceBindings.getD []) b = some "asset-store" := by
  rcases hcd : w.compatibilityDate with _ | cd <;>
    rcases hcf : w.compatibilityFlags with _ | cf <;>
    · simp only [applyAssetRouterWorkaround, ha, hb, hsp, hcd, hcf]
      exact ⟨_, _, _, rfl, by simp, rfl, rfl, rfl, rfl, rfl,
        objLookup_objSet_self _ b "asset-store"⟩

/-- Witness for C2 at a one-worker sequence with asset binding "ASSETS". -/
theorem C2_witness :
    ∃ router store w2,
      applyAssetRouterWorkaround "/base" [assetMainWorker] = some (router :: store :: w2 :: []) ∧
      (router :: store :: w2 :: ([] : List CompiledWorker)).length = [assetMainWorker].length + 2 ∧
      router.name = "asset-router" ∧
      store.name = "asset-store" ∧
      w2.assets = none ∧
      w2 = { assetMainWorker with assets := none, serviceBindings := some (objSet (assetMainWorker.serviceBindings.getD []) "ASSETS" "asset-store") } ∧
      router.serviceBindings = some [("USER_WORKER", assetMainWorker.name), ("ASSET_STORE", "asset-store")] ∧
      objLookup (w2.serviceBindings.getD []) "ASSETS" = some "asset-store" :=
  C2_asset_synthesis "/base" assetMainWorker []
    { binding := some "ASSETS", directory := some "./d" } "ASSETS" "./w/main.js"
    rfl rfl rfl

/-- C4: the asset fallback synthesizer is idempotent — whenever one
application succeeds, a second application returns the sequence unchanged;
and whenever the worker at index 0 has no `assets` field the synthesizer
is a no-op. -/
theorem C4_idempotent :
    (∀ (cwd : String) (l l' : List CompiledWorker),
      applyAssetRouterWorkaround cwd l = some l' →
        applyAssetRouterWorkaround cwd l' = some l') ∧
    (∀ (cwd : String) (w : CompiledWorker) (ws : List CompiledWorker),
      w.assets = none → applyAssetRouterWorkaround cwd (w :: ws) = some (w :: ws)) := by
  have hnoop : ∀ (cwd : String) (w : CompiledWorker) (ws : List CompiledWorker),
      w.assets = none → applyAssetRouterWorkaround cwd (w :: ws) = some (w :: ws) := by
    intro cwd w ws h
    simp [applyAssetRouterWorkaround, h]
  refine ⟨?_, hnoop⟩
  intro cwd l l' h
  match l with
  | [] => simp [applyAssetRouterWorkaround] at h
  | w :: ws =>
    rcases hw : w.assets with _ | ac
    · rw [hnoop cwd w ws hw] at h
      obtain rfl : w :: ws = l' := Option.some.inj h
      exact hnoop cwd w ws hw
    · rcases hcd : w.compatibilityDate with _ | cd <;>
        rcases hcf : w.compatibilityFlags with _ | cf <;>
        · simp only [applyAssetRouterWorkaround, hw, hcd, hcf] at h
          obtain rfl := Option.some.inj h
          simp [applyAssetRouterWorkaround]

/-- Witness for C4: a second application of the synthesizer to the already
synthesized list is the identity, and the synthesizer is a no-op on a
primary worker with no assets. -/
theorem C4_witness :
    (applyAssetRouterWorkaround "/base" assetAppliedList = some assetAppliedList) ∧
    (applyAssetRouterWorkaround "/base" [{ name := "main" }] = some [{ name := "main" }]) :=
  ⟨C4_idempotent.1 "/base" [assetMainWorker] assetAppliedList rfl,
   C4_idempotent.2 "/base" { name := "main" } [] rfl⟩

theorem compile_script_fields (d : Descriptor) (m : List (String × ServiceMock))
    (hm : mocksWellTyped m) :
    ∀ w ∈ (createMiniflareOptions d m).workers, w.script = none ∨ w.scriptPath = none := by
  intro w hw
  rw [compile_workers_eq] at hw
  rcases List.mem_cons.mp hw with rfl | hw
  · left
    rfl
  · rcases hs : d.services with _ | svcs
    · rw [hs] at hw
      simp at hw
    · rw [hs] at hw
      simp only [List.mem_map] at hw
      obtain ⟨s, _, rfl⟩ := hw
      unfold mkServiceWorker
      rcases hmk : objLookup m s.service with _ | mock
      · right
        rfl
      · have hmem : (s.service, mock) ∈ m := objLookup_mem m s.service mock hmk
        rcases hm _ hmem with h | h
        · left
          simpa using h
        · right
          simpa using h

theorem apply_script_fields (cwd : String) (l l' : List CompiledWorker)
    (h : applyAssetRouterWorkaround cwd l = some l')
    (hl : ∀ w ∈ l, w.script = none ∨ w.scriptPath = none) :
    ∀ w ∈ l', w.name ≠ "asset-router" → w.name ≠ "asset-store" →
      (w.script = none ∨ w.scriptPath = none) := by
  match l with
  | [] => simp [applyAssetRouterWorkaround] at h
  | w0 :: ws =>
    rcases hw : w0.assets with _ | ac
    · simp only [applyAssetRouterWorkaround, hw] at h
      obtain rfl := Option.some.inj h
      exact fun w hwmem _ _ => hl w hwmem
    · rcases hcd : w0.compatibilityDate with _ | cd <;>
        rcases hcf : w0.compatibilityFlags with _ | cf <;>
        rcases hb : ac.binding with _ | b <;>
        · simp only [applyAssetRouterWorkaround, hw, hcd, hcf, hb] at h
          obtain rfl := Option.some.inj h
          intro w hwmem hr hs
          rcases List.mem_cons.mp hwmem with rfl | hwmem
          · exact absurd rfl hr
          · rcases List.mem_cons.mp hwmem with rfl | hwmem
            · exact absurd rfl hs
            · rcases List.mem_cons.mp hwmem with rfl | hwmem
              · simpa using hl w0 (List.mem_cons_self w0 ws)
              · exact hl w (List.mem_cons_of_mem w0 hwmem)

/-- C5 fails on the code: compiling a descriptor with an asset block and a
main script path and then applying the asset fallback synthesizer yields a
router worker (index 0) and an asset-store worker (index 1) that each
carry BOTH a `script` and a `scriptPath`, while the demoted primary worker
keeps only its `scriptPath`. -/
theorem C5_counterexample :
    (applyAssetRouterWorkaround "/base" (createMiniflareOptions assetsDesc []).workers).map
        (fun l => l.map (fun w => (w.script.isSome, w.scriptPath.isSome))) =
      some [(true, true), (true, true), (false, true)] := by
  rfl

/-- C5 (amended): after the binding compiler (with a well-typed mock
registry) and the asset fallback synthesizer, every worker other than the
synthetic "asset-router" and "asset-store" workers carries at most one of
`script` and `scriptPath`; the two synthetic workers carry both. -/
theorem C5_amended (d : Descriptor) (m : List (String × ServiceMock)) (cwd : String)
    (l' : List CompiledWorker) (hm : mocksWellTyped m)
    (h : applyAssetRouterWorkaround cwd (createMiniflareOptions d m).workers = some l') :
    ∀ w ∈ l', w.name ≠ "asset-router" → w.name ≠ "asset-store" →
      (w.script = none ∨ w.scriptPath = none) :=
  apply_script_fields cwd (createMiniflareOptions d m).workers l' h
    (compile_script_fields d m hm)

/-- Witness for C5 (amended) at the empty descriptor. -/
theorem C5_witness :
    (mkMainWorker {}).script = none ∨ (mkMainWorker {}).scriptPath = none :=
  C5_amended {} [] "/base" [mkMainWorker {}]
    (by intro p hp; simp at hp)
    rfl
    (mkMainWorker {}) (List.mem_cons_self _ _) (by decide) (by decide)
